import Mathlib

/-
Shallow embedding of the async FileMaker Data API client
(fmrest/server_async.py, class ServerAsync).

Effects of the Python code that the claims observe are threaded through an
explicit state record `St`:
  calls    counts executed inner remote round trips (an awaited invocation of
           the body of `_call_filemaker_async`);
  relogins counts re-authentication cycles performed by the relogin wrapper;
  sleeps   counts invocations of `time.sleep` in the retry wrapper (each one
           sleeps the fixed configured delay, so "no delay" means the counter
           is unchanged);
  token    is the session token stored on the client instance.

External collaborators (the HTTP transport `request_async`, the JSON decoder
`json.loads`, the payload builders and result mappers) are parameters of the
embedding, exactly the role the spec assigns them.  Code of the repository
that is not under src/ (the relogin wrapper `Server._with_auto_relogin`, the
exceptions module with `FILEMAKER_NOT_FOUND_ERRORS`, and
`Server.handle_response_data`) is modelled from the spec where noted.
-/

namespace FmrestAsync

/-- Python exception values crossing the wrapper layer.  The exception
classes live in fmrest/exceptions.py (not under src/); per the spec
(section 7) the three kinds relevant here are the remote application error
(`FileMakerError`, carrying a message that `str(e)` returns), the
malformed-response error (`BadJSON`, carrying the original decode failure and
the raw body), and the transport error.  `BadJSON` and transport errors are
not subclasses of `FileMakerError`, so an `except FileMakerError` clause
does not catch them. -/
inductive PyErr where
  | fileMakerError (msg : String)
  | badJSON (decodeError : String) (rawBody : String)
  | transportError (info : String)
deriving DecidableEq

/-- Discriminates the `except FileMakerError` clause of the retry wrapper:
only remote application errors are caught by it. -/
def isFileMakerError : PyErr → Bool
  | PyErr.fileMakerError _ => true
  | _ => false

/-- Values a Python `async def` wrapper can hand back to a caller that
awaits it once: a real awaited value, the implicit `None` return, or a
coroutine object that was returned without being awaited (its body has not
executed; the payload records what awaiting it from the state at hand would
produce, the inner operations here being pure). -/
inductive PyResult (α : Type) where
  | value : α → PyResult α
  | pyNone : PyResult α
  | coroutine : Except PyErr α → PyResult α

/-- Observable client state: stored session token plus the effect counters
described at the top of the file. -/
@[ext]
structure St where
  token : String
  calls : Nat
  relogins : Nat
  sleeps : Nat
deriving DecidableEq

/-- A wrapped asynchronous operation: from a client state it produces either
a value or a raised Python exception, together with the updated state. -/
def Op (α : Type) : Type := St → Except PyErr α × St

/-- An operation whose single awaited execution performs exactly one remote
round trip: the result of the n-th round trip overall is `remote n`. -/
def rawCall (remote : Nat → Except PyErr α) : Op α :=
  fun s => (remote s.calls, { s with calls := s.calls + 1 })

/-- The `while attempted <= self.retry_get_record_on_not_found_attempts`
loop of `ServerAsync._with_retry_get_resource` (server_async.py lines
32-51).  `fuel` is the number of loop iterations still permitted
(`attempts + 1 - attempted`), `lastErr` is the `error` variable holding the
message of the last recorded `FileMakerError`.  Each iteration awaits the
wrapped operation once; on success the result is returned at once; a caught
`FileMakerError` whose `str` is not in the not-found set is re-raised at
once; a recognized not-found error is recorded, `time.sleep` runs (counted
in `sleeps`), and the loop continues.  When the fuel is exhausted the code
raises the recorded error if there is one and otherwise falls through,
returning Python `None`. -/
def retryLoop (nf : List String) (op : Op α) : Nat → Option String → Op (PyResult α)
  | 0, lastErr => fun s =>
      match lastErr with
      | some msg => (Except.error (PyErr.fileMakerError msg), s)
      | none => (Except.ok PyResult.pyNone, s)
  | fuel + 1, _lastErr => fun s =>
      match op s with
      | (Except.ok v, s1) => (Except.ok (PyResult.value v), s1)
      | (Except.error e, s1) =>
          match e with
          | PyErr.fileMakerError msg =>
              if nf.contains msg then
                retryLoop nf op fuel (some msg) { s1 with sleeps := s1.sleeps + 1 }
              else (Except.error e, s1)
          | _ => (Except.error e, s1)

/-- `ServerAsync._with_retry_get_resource` (server_async.py lines 26-53).
`nf` is `FILEMAKER_NOT_FOUND_ERRORS` (exceptions.py, not under src/; the
spec describes it as a fixed set of known not-found messages, so it is a
parameter here), `enabled` is `self.retry_get_record_on_not_found` and
`attempts` is `self.retry_get_record_on_not_found_attempts`.  When retry is
disabled the source line 30 reads `return f(self, *args, **kwargs)` with no
`await`: the wrapper returns the coroutine object produced by calling `f`
without executing its body, so the state is unchanged and no inner call
runs. -/
def with_retry_get_resource (nf : List String) (enabled : Bool) (attempts : Nat)
    (op : Op α) : Op (PyResult α) :=
  fun s =>
    if enabled then retryLoop nf op (attempts + 1) none s
    else (Except.ok (PyResult.coroutine (op s).1), s)

/-- Modelled from the spec: `Server._with_auto_relogin` is defined in
fmrest/server.py, which is not under src/.  Spec section 4.1: the wrapper
calls the wrapped operation; if it fails with an error classified as
session invalid, the wrapper performs exactly one re-authentication cycle
(acquiring a new token that replaces the stored one, counted in
`relogins`; `login n` is the outcome of the n-th re-authentication overall)
and re-invokes the wrapped operation exactly once more; any other error
propagates unchanged immediately; a failure of re-authentication itself
propagates; the wrapper never loops. -/
def with_auto_relogin (sinv : PyErr → Bool) (login : Nat → Except PyErr String)
    (op : Op α) : Op α :=
  fun s =>
    match op s with
    | (Except.ok v, s1) => (Except.ok v, s1)
    | (Except.error e, s1) =>
        if sinv e then
          match login s1.relogins with
          | Except.ok tok => op { s1 with token := tok, relogins := s1.relogins + 1 }
          | Except.error le => (Except.error le, { s1 with relogins := s1.relogins + 1 })
        else (Except.error e, s1)

/-- Modelled from the spec: the classification of remote application errors
as session invalid happens by message match (spec section 7); only a
`FileMakerError` can be classified session invalid. -/
def isSessionInvalidMsg (msgs : List String) : PyErr → Bool
  | PyErr.fileMakerError m => msgs.contains m
  | _ => false

/-- Body of `ServerAsync._call_filemaker_async` (server_async.py lines
168-190), below its own relogin decorator.  One execution is one remote
round trip, counted in `calls`.  The URL build and `_update_token_header`
touch only `self._headers`, which no claim observes; the transport
`request_async` (fmrest/utils.py, external per the spec) yields the raw
response text of the n-th round trip or a transport error; `decode` is
`json.loads`, whose failure is wrapped as `BadJSON(ex, response_text)`
carrying the decode failure and the raw body; a decoded body is passed to
`handle`, the `self.handle_response_data` call. -/
def call_filemaker_body (transport : Nat → Except PyErr String)
    (decode : String → Except String J) (handle : J → Except PyErr J) : Op J :=
  fun s =>
    let s1 : St := { s with calls := s.calls + 1 }
    match transport s.calls with
    | Except.error te => (Except.error te, s1)
    | Except.ok text =>
        match decode text with
        | Except.error ex => (Except.error (PyErr.badJSON ex text), s1)
        | Except.ok data => (handle data, s1)

/-- Modelled from the spec: `Server.handle_response_data` is defined in
fmrest/server.py, which is not under src/.  Per spec sections 4.3 and 8,
on a decoded response indicating success it returns a result map equal to
the decoded JSON, and on a decoded response indicating an application-level
failure it raises the domain error carrying the remote message; `appErr`
classifies the decoded value, giving the failure message when there is
one. -/
def handle_response_data (appErr : J → Option String) (j : J) : Except PyErr J :=
  match appErr j with
  | some msg => Except.error (PyErr.fileMakerError msg)
  | none => Except.ok j

/-- `ServerAsync._call_filemaker_async` as callers see it: the body above
under its `@Server._with_auto_relogin` decorator (server_async.py line
168). -/
def call_filemaker_async (sinv : PyErr → Bool) (login : Nat → Except PyErr String)
    (transport : Nat → Except PyErr String) (decode : String → Except String J)
    (appErr : J → Option String) : Op J :=
  with_auto_relogin sinv login
    (call_filemaker_body transport decode (handle_response_data appErr))

/-- Undecorated body shared by every public operation: build the payload
(pure, external), await `self._call_filemaker_async(**payload)`, and map
the response through the per-operation result mapper `prep` (external). -/
def opBody (inner : Op J) (prep : J → α) : Op α :=
  fun s =>
    match inner s with
    | (Except.ok j, s1) => (Except.ok (prep j), s1)
    | (Except.error e, s1) => (Except.error e, s1)

section Ops

variable {J α : Type}
variable (sinv : PyErr → Bool) (login : Nat → Except PyErr String)
variable (transport : Nat → Except PyErr String) (decode : String → Except String J)
variable (appErr : J → Option String) (prep : J → α)
variable (nf : List String) (enabled : Bool) (attempts : Nat)

/-- `ServerAsync.create_record_async` (lines 55-62): no decorator of its
own; relogin still happens inside `_call_filemaker_async`. -/
def create_record_async : Op α :=
  opBody (call_filemaker_async sinv login transport decode appErr) prep

/-- `ServerAsync.edit_record_async` (lines 64-79): relogin wrapper only. -/
def edit_record_async : Op α :=
  with_auto_relogin sinv login
    (opBody (call_filemaker_async sinv login transport decode appErr) prep)

/-- `ServerAsync.delete_record_async` (lines 81-87): relogin wrapper only. -/
def delete_record_async : Op α :=
  with_auto_relogin sinv login
    (opBody (call_filemaker_async sinv login transport decode appErr) prep)

/-- `ServerAsync.perform_script_async` (lines 103-107): relogin wrapper
only. -/
def perform_script_async : Op α :=
  with_auto_relogin sinv login
    (opBody (call_filemaker_async sinv login transport decode appErr) prep)

/-- `ServerAsync.fetch_file_async` (lines 148-160): relogin wrapper only. -/
def fetch_file_async : Op α :=
  with_auto_relogin sinv login
    (opBody (call_filemaker_async sinv login transport decode appErr) prep)

/-- `ServerAsync.set_globals_async` (lines 162-166): relogin wrapper
only. -/
def set_globals_async : Op α :=
  with_auto_relogin sinv login
    (opBody (call_filemaker_async sinv login transport decode appErr) prep)

/-- `ServerAsync.get_record_async` (lines 89-101): retry decorator outside
the relogin decorator, in source order
`@Server._with_retry_get_resource` above `@Server._with_auto_relogin`. -/
def get_record_async : Op (PyResult α) :=
  with_retry_get_resource nf enabled attempts
    (with_auto_relogin sinv login
      (opBody (call_filemaker_async sinv login transport decode appErr) prep))

/-- `ServerAsync.get_records_async` (lines 109-126): retry decorator
outside the relogin decorator. -/
def get_records_async : Op (PyResult α) :=
  with_retry_get_resource nf enabled attempts
    (with_auto_relogin sinv login
      (opBody (call_filemaker_async sinv login transport decode appErr) prep))

/-- `ServerAsync.find_async` (lines 128-146): retry decorator outside the
relogin decorator. -/
def find_async : Op (PyResult α) :=
  with_retry_get_resource nf enabled attempts
    (with_auto_relogin sinv login
      (opBody (call_filemaker_async sinv login transport decode appErr) prep))

end Ops

/-
Concrete instances used to evaluate the definitions on closed inputs.
Message strings are markers chosen freely: the claims quantify over the
not-found set and the session-invalid classification by membership only.
-/

/-- Initial client state: fresh token, no effects yet. -/
def st0 : St := { token := "t", calls := 0, relogins := 0, sleeps := 0 }

/-- A sample not-found message set with one entry. -/
def nfW : List String := ["nf"]

/-- Inner call that raises a domain error on every attempt. -/
def remoteBoom : Nat → Except PyErr Nat := fun _ =>
  Except.error (PyErr.fileMakerError "boom")

/-- Inner call that succeeds with 42 on every attempt. -/
def remoteOk : Nat → Except PyErr Nat := fun _ => Except.ok 42

/-- Inner call that raises a recognized not-found error on attempts 0 and 1
and succeeds with 42 on every later attempt. -/
def remoteW2 : Nat → Except PyErr Nat := fun k =>
  if k < 2 then Except.error (PyErr.fileMakerError "nf") else Except.ok 42

/-- Distinct not-found messages per attempt, to tell the final error from
earlier ones. -/
def mW3 : Nat → String := fun k => if k = 0 then "nfA" else "nfB"

/-- Inner call failing with the recognized not-found error `mW3 k` on every
attempt k. -/
def remote3 : Nat → Except PyErr Nat := fun k =>
  Except.error (PyErr.fileMakerError (mW3 k))

/-- Not-found set recognizing both messages of `mW3`. -/
def nf3 : List String := ["nfA", "nfB"]

/-- Inner call failing with a domain error whose message is not in the
not-found set. -/
def remote4 : Nat → Except PyErr Nat := fun _ =>
  Except.error (PyErr.fileMakerError "other")

/-- Inner call failing with a malformed-response error (not a domain
error). -/
def remote9 : Nat → Except PyErr Nat := fun _ =>
  Except.error (PyErr.badJSON "expecting value" "oops")

/-- Session-invalid classification recognizing the marker message sinv. -/
def sinvW : PyErr → Bool := isSessionInvalidMsg ["sinv"]

/-- Re-authentication that succeeds, handing out the token tokA first and
tokB afterwards. -/
def loginW : Nat → Except PyErr String := fun k =>
  Except.ok (if k = 0 then "tokA" else "tokB")

/-- Transport whose every round trip yields the body nf. -/
def transport5 : Nat → Except PyErr String := fun _ => Except.ok "nf"

/-- Identity JSON decoding over string bodies: every body is valid. -/
def decodeW : String → Except String String := fun t => Except.ok t

/-- Response classification: the body ok indicates success, every other
body is an application-level failure whose message is the body itself. -/
def appErrW : String → Option String := fun j => if j = "ok" then none else some j

/-- Round-trip schedule for the relogin-per-retry-attempt scenario:
session-invalid, then not-found, then session-invalid, then success. -/
def transportW : Nat → Except PyErr String := fun k =>
  match k with
  | 0 => Except.ok "sinv"
  | 1 => Except.ok "nf"
  | 2 => Except.ok "sinv"
  | _ => Except.ok "ok"

/-- Inner call failing with the session-invalid marker on every attempt. -/
def remoteC7 : Nat → Except PyErr Nat := fun _ =>
  Except.error (PyErr.fileMakerError "sinv")

/-- Decoder over numeric payloads: the body 7 decodes to 7, every other
body fails to decode. -/
def decode8 : String → Except String Nat := fun t =>
  if t = "7" then Except.ok 7 else Except.error "expecting value"

/-- Transport always yielding the valid body 7. -/
def transport7 : Nat → Except PyErr String := fun _ => Except.ok "7"

/-- Transport always yielding the invalid body oops. -/
def transportBad : Nat → Except PyErr String := fun _ => Except.ok "oops"

/-- Response classification under which every decoded value is a success. -/
def appErr8 : Nat → Option String := fun _ => none

/-
Theorems.  Helper lemmas about the retry loop come first; the claim
theorems follow, one per claim, each with its witness where the statement
carries hypotheses.
-/

/-- With retry enabled the wrapper is the loop run with attempts + 1 units
of fuel and no recorded error. -/
theorem with_retry_enabled_eq (nf : List String) (attempts : Nat) (op : Op α) (s : St) :
    with_retry_get_resource nf true attempts op s = retryLoop nf op (attempts + 1) none s :=
  rfl

/-- One unfolding step of the retry loop while fuel remains. -/
theorem retryLoop_succ (nf : List String) (op : Op α) (fuel : Nat)
    (lastErr : Option String) (s : St) :
    retryLoop nf op (fuel + 1) lastErr s =
      match op s with
      | (Except.ok v, s1) => (Except.ok (PyResult.value v), s1)
      | (Except.error e, s1) =>
          match e with
          | PyErr.fileMakerError msg =>
              if nf.contains msg then
                retryLoop nf op fuel (some msg) { s1 with sleeps := s1.sleeps + 1 }
              else (Except.error e, s1)
          | _ => (Except.error e, s1) :=
  rfl

/-- When every executed attempt fails with a recognized not-found error,
the loop consumes all of its fuel, making one call and one sleep per unit
of fuel, and raises the error recorded on the final attempt. -/
theorem retryLoop_all_nf (nf : List String) (op : Op α) (m : Nat → String)
    (hop : ∀ s : St, op s =
      (Except.error (PyErr.fileMakerError (m s.calls)), { s with calls := s.calls + 1 }))
    (hnf : ∀ k, nf.contains (m k) = true) :
    ∀ (fuel : Nat) (lastErr : Option String) (s : St),
      retryLoop nf op (fuel + 1) lastErr s =
        (Except.error (PyErr.fileMakerError (m (s.calls + fuel))),
         { s with calls := s.calls + fuel + 1, sleeps := s.sleeps + fuel + 1 }) := by
  intro fuel
  induction fuel with
  | zero =>
    intro lastErr s
    rw [retryLoop_succ, hop s]
    simp only [hnf, if_true]
    simp [retryLoop]
  | succ n ih =>
    intro lastErr s
    rw [retryLoop_succ, hop s]
    simp only [hnf, if_true]
    rw [ih]
    simp [Nat.add_assoc, Nat.add_comm, Nat.add_left_comm]

/-- When the executed attempts fail with recognized not-found errors until
call number j, which succeeds, the loop returns that attempt's value at
once after j + 1 calls and j sleeps. -/
theorem retryLoop_until_ok (nf : List String) (op : Op α) (m : Nat → String) (v : α)
    (hnf : ∀ k, nf.contains (m k) = true) :
    ∀ (j fuel : Nat) (lastErr : Option String) (s : St), j < fuel →
      (∀ t : St, t.calls < s.calls + j →
        op t = (Except.error (PyErr.fileMakerError (m t.calls)), { t with calls := t.calls + 1 })) →
      (∀ t : St, t.calls = s.calls + j →
        op t = (Except.ok v, { t with calls := t.calls + 1 })) →
      retryLoop nf op fuel lastErr s =
        (Except.ok (PyResult.value v),
         { s with calls := s.calls + j + 1, sleeps := s.sleeps + j }) := by
  intro j
  induction j with
  | zero =>
    intro fuel lastErr s hfuel hfail hsucc
    cases fuel with
    | zero => omega
    | succ f =>
      simp [retryLoop, hsucc s rfl]
  | succ j ih =>
    intro fuel lastErr s hfuel hfail hsucc
    cases fuel with
    | zero => omega
    | succ f =>
      have hfs : s.calls < s.calls + (j + 1) := by omega
      simp only [retryLoop, hfail s hfs, hnf, if_true]
      have hfail2 : ∀ t : St,
          t.calls < ({ s with calls := s.calls + 1, sleeps := s.sleeps + 1 } : St).calls + j →
          op t = (Except.error (PyErr.fileMakerError (m t.calls)),
                  { t with calls := t.calls + 1 }) := by
        intro t ht
        exact hfail t (by simp at ht; omega)
      have hsucc2 : ∀ t : St,
          t.calls = ({ s with calls := s.calls + 1, sleeps := s.sleeps + 1 } : St).calls + j →
          op t = (Except.ok v, { t with calls := t.calls + 1 }) := by
        intro t ht
        exact hsucc t (by simp at ht; omega)
      rw [ih f (some (m s.calls)) _ (by omega) hfail2 hsucc2]
      simp [Nat.add_assoc, Nat.add_comm, Nat.add_left_comm]

/-- C1 (code bug at server_async.py line 30): with the retry flag disabled
the wrapper returns `f(self, *args, **kwargs)` without awaiting it, so a
caller that awaits the wrapped read operation once receives the un-awaited
coroutine object instead of the inner result, the inner body never runs
(zero executed inner calls, state unchanged), and an inner error is not
raised either. -/
theorem retry_disabled_returns_unawaited_coroutine :
    (with_retry_get_resource nfW false 3 (rawCall remoteOk) st0 =
      (Except.ok (PyResult.coroutine (Except.ok 42)), st0))
  ∧ (with_retry_get_resource nfW false 3 (rawCall remoteBoom) st0 =
      (Except.ok (PyResult.coroutine (Except.error (PyErr.fileMakerError "boom"))), st0)) :=
  ⟨rfl, rfl⟩

/-- C2: with retry enabled, the first successful attempt ends the loop at
once: if the executed attempts before call number j fail with recognized
not-found errors and call number j succeeds with v, where j does not
exceed the configured attempt bound, the wrapper returns v after exactly
j + 1 inner calls. -/
theorem retry_returns_first_successful_attempt (nf : List String) (attempts : Nat)
    (op : Op α) (m : Nat → String) (v : α) (j : Nat) (s : St)
    (hj : j ≤ attempts)
    (hnf : ∀ k, nf.contains (m k) = true)
    (hfail : ∀ t : St, t.calls < s.calls + j →
      op t = (Except.error (PyErr.fileMakerError (m t.calls)), { t with calls := t.calls + 1 }))
    (hsucc : ∀ t : St, t.calls = s.calls + j →
      op t = (Except.ok v, { t with calls := t.calls + 1 })) :
    with_retry_get_resource nf true attempts op s =
      (Except.ok (PyResult.value v),
       { s with calls := s.calls + j + 1, sleeps := s.sleeps + j }) := by
  rw [with_retry_enabled_eq]
  exact retryLoop_until_ok nf op m v hnf j (attempts + 1) none s (by omega) hfail hsucc

/-- Witness for C2 with max attempts 2 and recognized not-found failures on
attempts 1 and 2: the wrapper returns the attempt-3 result 42 after exactly
3 inner calls. -/
theorem retry_returns_first_successful_attempt_witness :
    with_retry_get_resource nfW true 2 (rawCall remoteW2) st0 =
      (Except.ok (PyResult.value 42),
       { token := "t", calls := 3, relogins := 0, sleeps := 2 }) := by
  have hfail : ∀ t : St, t.calls < st0.calls + 2 →
      rawCall remoteW2 t =
        (Except.error (PyErr.fileMakerError ((fun _ => "nf") t.calls)),
         { t with calls := t.calls + 1 }) := by
    intro t ht
    have h2 : t.calls < 2 := by simpa [st0] using ht
    simp [rawCall, remoteW2, h2]
  have hsucc : ∀ t : St, t.calls = st0.calls + 2 →
      rawCall remoteW2 t = (Except.ok (42 : Nat), { t with calls := t.calls + 1 }) := by
    intro t ht
    have h2 : t.calls = 2 := by simpa [st0] using ht
    simp [rawCall, remoteW2, h2]
  have h := retry_returns_first_successful_attempt nfW 2 (rawCall remoteW2)
      (fun _ => "nf") 42 2 st0 (by omega) (by intro k; simp [nfW]) hfail hsucc
  simpa [st0] using h

/-- C3: with retry enabled and every executed attempt failing with a
recognized not-found error, the wrapper makes exactly attempts + 1 inner
calls and raises the error recorded from the final attempt, not an earlier
one. -/
theorem retry_exhausts_and_raises_final_error (nf : List String) (attempts : Nat)
    (op : Op α) (m : Nat → String)
    (hop : ∀ s : St, op s =
      (Except.error (PyErr.fileMakerError (m s.calls)), { s with calls := s.calls + 1 }))
    (hnf : ∀ k, nf.contains (m k) = true) (s : St) :
    with_retry_get_resource nf true attempts op s =
      (Except.error (PyErr.fileMakerError (m (s.calls + attempts))),
       { s with calls := s.calls + attempts + 1, sleeps := s.sleeps + attempts + 1 }) := by
  rw [with_retry_enabled_eq]
  exact retryLoop_all_nf nf op m hop hnf attempts none s

/-- Witness for C3 with max attempts 1 and distinct recognized not-found
messages nfA then nfB: after 2 inner calls the wrapper raises the final
error nfB, not the earlier nfA. -/
theorem retry_exhausts_and_raises_final_error_witness :
    with_retry_get_resource nf3 true 1 (rawCall remote3) st0 =
      (Except.error (PyErr.fileMakerError "nfB"),
       { token := "t", calls := 2, relogins := 0, sleeps := 2 }) := by
  have h := retry_exhausts_and_raises_final_error nf3 1 (rawCall remote3) mW3
      (fun s => rfl) (by intro k; cases k <;> simp [mW3, nf3]) st0
  simpa [st0, mW3] using h

/-- C4: with retry enabled, an attempt failing with a domain error whose
message is not in the not-found set is re-raised at once: one inner call,
no sleep, the state otherwise unchanged. -/
theorem retry_reraises_unrecognized_error_immediately (nf : List String) (attempts : Nat)
    (op : Op α) (msg : String) (s : St)
    (h1 : op s = (Except.error (PyErr.fileMakerError msg), { s with calls := s.calls + 1 }))
    (h2 : nf.contains msg = false) :
    with_retry_get_resource nf true attempts op s =
      (Except.error (PyErr.fileMakerError msg), { s with calls := s.calls + 1 }) := by
  have hmem : ¬ (msg ∈ nf) := by simpa using h2
  rw [with_retry_enabled_eq, retryLoop_succ, h1]
  simp [hmem]

/-- Witness for C4: a first-attempt domain error with the unrecognized
message other is raised at once with exactly one inner call and no sleep. -/
theorem retry_reraises_unrecognized_error_immediately_witness :
    with_retry_get_resource nfW true 3 (rawCall remote4) st0 =
      (Except.error (PyErr.fileMakerError "other"),
       { token := "t", calls := 1, relogins := 0, sleeps := 0 }) := by
  have h := retry_reraises_unrecognized_error_immediately nfW 3 (rawCall remote4)
      "other" st0 rfl (by simp [nfW])
  simpa [st0] using h

/-- C9: the retry wrapper catches only the domain error type, so a
malformed-response or transport error from an attempt propagates through
it unchanged even with retry enabled: one inner call, no sleep. -/
theorem retry_passes_noncatchable_errors_unchanged (nf : List String) (attempts : Nat)
    (op : Op α) (e : PyErr) (s : St)
    (he : isFileMakerError e = false)
    (h1 : op s = (Except.error e, { s with calls := s.calls + 1 })) :
    with_retry_get_resource nf true attempts op s =
      (Except.error e, { s with calls := s.calls + 1 }) := by
  rw [with_retry_enabled_eq]
  cases e with
  | fileMakerError msg => simp [isFileMakerError] at he
  | badJSON ex raw => simp [retryLoop, h1]
  | transportError info => simp [retryLoop, h1]

/-- Witness for C9: with retry enabled, a malformed-response error from the
first attempt propagates unchanged after exactly one inner call and no
sleep. -/
theorem retry_passes_noncatchable_errors_unchanged_witness :
    with_retry_get_resource nfW true 3 (rawCall remote9) st0 =
      (Except.error (PyErr.badJSON "expecting value" "oops"),
       { token := "t", calls := 1, relogins := 0, sleeps := 0 }) := by
  have h := retry_passes_noncatchable_errors_unchanged nfW 3 (rawCall remote9)
      (PyErr.badJSON "expecting value" "oops") st0 rfl rfl
  simpa [st0] using h

/-- C10: with retry enabled and every executed attempt failing with a
recognized not-found error, the fixed delay runs after every failure
including the final one: the sleep counter grows by attempts + 1 even
though no attempt follows the last sleep. -/
theorem retry_sleeps_after_every_failed_attempt (nf : List String) (attempts : Nat)
    (op : Op α) (m : Nat → String)
    (hop : ∀ s : St, op s =
      (Except.error (PyErr.fileMakerError (m s.calls)), { s with calls := s.calls + 1 }))
    (hnf : ∀ k, nf.contains (m k) = true) (s : St) :
    ((with_retry_get_resource nf true attempts op s).2).sleeps =
      s.sleeps + attempts + 1 := by
  rw [with_retry_enabled_eq, retryLoop_all_nf nf op m hop hnf attempts none s]

/-- Witness for C10 with max attempts 1: both attempts fail with recognized
not-found errors and the sleep counter ends at 2, one sleep per failure,
the last one after the final failure. -/
theorem retry_sleeps_after_every_failed_attempt_witness :
    ((with_retry_get_resource nf3 true 1 (rawCall remote3) st0).2).sleeps = 2 := by
  have h := retry_sleeps_after_every_failed_attempt nf3 1 (rawCall remote3) mW3
      (fun s => rfl) (by intro k; cases k <;> simp [mW3, nf3]) st0
  simpa [st0] using h

/-- Under a remote schedule whose every round trip yields a decodable body
classified as an application-level failure that is not session invalid,
one executed attempt of the remote-call function makes exactly one round
trip and raises that failure; its own relogin decorator passes it on. -/
theorem call_fm_async_always_nf {J : Type} (sinv : PyErr → Bool)
    (login : Nat → Except PyErr String) (transport : Nat → Except PyErr String)
    (decode : String → Except String J) (appErr : J → Option String)
    (text : Nat → String) (jj : Nat → J) (m : Nat → String)
    (htr : ∀ k, transport k = Except.ok (text k))
    (hdec : ∀ k, decode (text k) = Except.ok (jj k))
    (happ : ∀ k, appErr (jj k) = some (m k))
    (hsinv : ∀ k, sinv (PyErr.fileMakerError (m k)) = false) :
    ∀ s : St, call_filemaker_async sinv login transport decode appErr s =
      (Except.error (PyErr.fileMakerError (m s.calls)), { s with calls := s.calls + 1 }) := by
  intro s
  simp [call_filemaker_async, with_auto_relogin, call_filemaker_body,
        handle_response_data, htr, hdec, happ, hsinv]

/-- Under the same schedule, one attempt of a retry-wrapped read operation
(the relogin-wrapped body around the remote-call function) makes exactly
one round trip and raises the not-found failure. -/
theorem read_attempt_always_nf {J α : Type} (sinv : PyErr → Bool)
    (login : Nat → Except PyErr String) (transport : Nat → Except PyErr String)
    (decode : String → Except String J) (appErr : J → Option String) (prep : J → α)
    (text : Nat → String) (jj : Nat → J) (m : Nat → String)
    (htr : ∀ k, transport k = Except.ok (text k))
    (hdec : ∀ k, decode (text k) = Except.ok (jj k))
    (happ : ∀ k, appErr (jj k) = some (m k))
    (hsinv : ∀ k, sinv (PyErr.fileMakerError (m k)) = false) :
    ∀ s : St,
      with_auto_relogin sinv login
        (opBody (call_filemaker_async sinv login transport decode appErr) prep) s =
      (Except.error (PyErr.fileMakerError (m s.calls)), { s with calls := s.calls + 1 }) := by
  intro s
  have hcfm := call_fm_async_always_nf sinv login transport decode appErr
      text jj m htr hdec happ hsinv
  simp [with_auto_relogin, opBody, hcfm, hsinv]

/-- C5: the not-found retry policy is attached to exactly the three read
operations.  Under a remote schedule whose every round trip reports a
recognized not-found failure (never session invalid), the single-record
fetch, multi-record fetch and find operations with retry enabled make
attempts + 1 inner calls with a sleep after each, while create, edit,
delete, perform-script, fetch-file and set-globals each make exactly one
inner call, raise at once, and never sleep. -/
theorem retry_applies_to_read_ops_only {J α : Type} (sinv : PyErr → Bool)
    (login : Nat → Except PyErr String) (transport : Nat → Except PyErr String)
    (decode : String → Except String J) (appErr : J → Option String) (prep : J → α)
    (nf : List String) (attempts : Nat)
    (text : Nat → String) (jj : Nat → J) (m : Nat → String)
    (htr : ∀ k, transport k = Except.ok (text k))
    (hdec : ∀ k, decode (text k) = Except.ok (jj k))
    (happ : ∀ k, appErr (jj k) = some (m k))
    (hsinv : ∀ k, sinv (PyErr.fileMakerError (m k)) = false)
    (hnf : ∀ k, nf.contains (m k) = true) (s : St) :
    (get_record_async sinv login transport decode appErr prep nf true attempts s =
       (Except.error (PyErr.fileMakerError (m (s.calls + attempts))),
        { s with calls := s.calls + attempts + 1, sleeps := s.sleeps + attempts + 1 }))
  ∧ (get_records_async sinv login transport decode appErr prep nf true attempts s =
       (Except.error (PyErr.fileMakerError (m (s.calls + attempts))),
        { s with calls := s.calls + attempts + 1, sleeps := s.sleeps + attempts + 1 }))
  ∧ (find_async sinv login transport decode appErr prep nf true attempts s =
       (Except.error (PyErr.fileMakerError (m (s.calls + attempts))),
        { s with calls := s.calls + attempts + 1, sleeps := s.sleeps + attempts + 1 }))
  ∧ (create_record_async sinv login transport decode appErr prep s =
       (Except.error (PyErr.fileMakerError (m s.calls)), { s with calls := s.calls + 1 }))
  ∧ (edit_record_async sinv login transport decode appErr prep s =
       (Except.error (PyErr.fileMakerError (m s.calls)), { s with calls := s.calls + 1 }))
  ∧ (delete_record_async sinv login transport decode appErr prep s =
       (Except.error (PyErr.fileMakerError (m s.calls)), { s with calls := s.calls + 1 }))
  ∧ (perform_script_async sinv login transport decode appErr prep s =
       (Except.error (PyErr.fileMakerError (m s.calls)), { s with calls := s.calls + 1 }))
  ∧ (fetch_file_async sinv login transport decode appErr prep s =
       (Except.error (PyErr.fileMakerError (m s.calls)), { s with calls := s.calls + 1 }))
  ∧ (set_globals_async sinv login transport decode appErr prep s =
       (Except.error (PyErr.fileMakerError (m s.calls)), { s with calls := s.calls + 1 })) := by
  have hcfm := call_fm_async_always_nf sinv login transport decode appErr
      text jj m htr hdec happ hsinv
  have hatt := read_attempt_always_nf sinv login transport decode appErr prep
      text jj m htr hdec happ hsinv
  refine ⟨?_, ?_, ?_, ?_, ?_, ?_, ?_, ?_, ?_⟩
  · exact retryLoop_all_nf nf _ m hatt hnf attempts none s
  · exact retryLoop_all_nf nf _ m hatt hnf attempts none s
  · exact retryLoop_all_nf nf _ m hatt hnf attempts none s
  · simp [create_record_async, opBody, hcfm]
  · simp [edit_record_async, with_auto_relogin, opBody, hcfm, hsinv]
  · simp [delete_record_async, with_auto_relogin, opBody, hcfm, hsinv]
  · simp [perform_script_async, with_auto_relogin, opBody, hcfm, hsinv]
  · simp [fetch_file_async, with_auto_relogin, opBody, hcfm, hsinv]
  · simp [set_globals_async, with_auto_relogin, opBody, hcfm, hsinv]

/-- Witness for C5 with max attempts 1 and every round trip reporting the
recognized not-found failure nf: the three read operations make 2 inner
calls and 2 sleeps, the six other operations one inner call and no
sleep. -/
theorem retry_applies_to_read_ops_only_witness :
    (get_record_async sinvW loginW transport5 decodeW appErrW (fun j => j) nfW true 1 st0 =
       (Except.error (PyErr.fileMakerError "nf"),
        { token := "t", calls := 2, relogins := 0, sleeps := 2 }))
  ∧ (get_records_async sinvW loginW transport5 decodeW appErrW (fun j => j) nfW true 1 st0 =
       (Except.error (PyErr.fileMakerError "nf"),
        { token := "t", calls := 2, relogins := 0, sleeps := 2 }))
  ∧ (find_async sinvW loginW transport5 decodeW appErrW (fun j => j) nfW true 1 st0 =
       (Except.error (PyErr.fileMakerError "nf"),
        { token := "t", calls := 2, relogins := 0, sleeps := 2 }))
  ∧ (create_record_async sinvW loginW transport5 decodeW appErrW (fun j => j) st0 =
       (Except.error (PyErr.fileMakerError "nf"),
        { token := "t", calls := 1, relogins := 0, sleeps := 0 }))
  ∧ (edit_record_async sinvW loginW transport5 decodeW appErrW (fun j => j) st0 =
       (Except.error (PyErr.fileMakerError "nf"),
        { token := "t", calls := 1, relogins := 0, sleeps := 0 }))
  ∧ (delete_record_async sinvW loginW transport5 decodeW appErrW (fun j => j) st0 =
       (Except.error (PyErr.fileMakerError "nf"),
        { token := "t", calls := 1, relogins := 0, sleeps := 0 }))
  ∧ (perform_script_async sinvW loginW transport5 decodeW appErrW (fun j => j) st0 =
       (Except.error (PyErr.fileMakerError "nf"),
        { token := "t", calls := 1, relogins := 0, sleeps := 0 }))
  ∧ (fetch_file_async sinvW loginW transport5 decodeW appErrW (fun j => j) st0 =
       (Except.error (PyErr.fileMakerError "nf"),
        { token := "t", calls := 1, relogins := 0, sleeps := 0 }))
  ∧ (set_globals_async sinvW loginW transport5 decodeW appErrW (fun j => j) st0 =
       (Except.error (PyErr.fileMakerError "nf"),
        { token := "t", calls := 1, relogins := 0, sleeps := 0 })) := by
  have h := retry_applies_to_read_ops_only sinvW loginW transport5 decodeW appErrW
      (fun j => j) nfW 1 (fun _ => "nf") (fun _ => "nf") (fun _ => "nf")
      (fun _ => rfl) (fun _ => rfl) (fun _ => rfl) (fun _ => rfl) (fun _ => rfl) st0
  simpa [st0] using h

/-- C6: the retry decorator sits outside the relogin decorator on every
read operation, so each retry attempt independently passes through the
relogin layer.  In a scenario where the session expires at the start of
each retry attempt (round trips: session invalid, not found, session
invalid, success) a single logical read call performs one relogin cycle
per retry attempt: two attempts, two relogins, four round trips, one
retry sleep, and the refreshed token is stored. -/
theorem read_ops_one_relogin_per_retry_attempt :
    (get_record_async sinvW loginW transportW decodeW appErrW (fun j => j) nfW true 1 st0 =
      (Except.ok (PyResult.value "ok"),
       { token := "tokB", calls := 4, relogins := 2, sleeps := 1 }))
  ∧ (get_records_async sinvW loginW transportW decodeW appErrW (fun j => j) nfW true 1 st0 =
      (Except.ok (PyResult.value "ok"),
       { token := "tokB", calls := 4, relogins := 2, sleeps := 1 }))
  ∧ (find_async sinvW loginW transportW decodeW appErrW (fun j => j) nfW true 1 st0 =
      (Except.ok (PyResult.value "ok"),
       { token := "tokB", calls := 4, relogins := 2, sleeps := 1 })) :=
  ⟨rfl, rfl, rfl⟩

/-- C7: the relogin wrapper performs exactly one re-authentication cycle
on a session-invalid failure, replacing the stored token, and re-invokes
the wrapped operation exactly once more; a second session-invalid failure
is raised with no third call; any non-session-invalid failure propagates
at once with no relogin. -/
theorem relogin_single_recovery_cycle {α : Type} (sinv : PyErr → Bool)
    (login : Nat → Except PyErr String) (remote : Nat → Except PyErr α) (s : St) :
    (∀ e1 tok v, remote s.calls = Except.error e1 → sinv e1 = true →
        login s.relogins = Except.ok tok → remote (s.calls + 1) = Except.ok v →
        with_auto_relogin sinv login (rawCall remote) s =
          (Except.ok v,
           { token := tok, calls := s.calls + 2, relogins := s.relogins + 1,
             sleeps := s.sleeps }))
  ∧ (∀ e1 tok e2, remote s.calls = Except.error e1 → sinv e1 = true →
        login s.relogins = Except.ok tok → remote (s.calls + 1) = Except.error e2 →
        with_auto_relogin sinv login (rawCall remote) s =
          (Except.error e2,
           { token := tok, calls := s.calls + 2, relogins := s.relogins + 1,
             sleeps := s.sleeps }))
  ∧ (∀ e1, remote s.calls = Except.error e1 → sinv e1 = false →
        with_auto_relogin sinv login (rawCall remote) s =
          (Except.error e1, { s with calls := s.calls + 1 })) := by
  refine ⟨?_, ?_, ?_⟩
  · intro e1 tok v h1 hs hl h2
    simp [with_auto_relogin, rawCall, h1, hs, hl, h2, Nat.add_assoc]
  · intro e1 tok e2 h1 hs hl h2
    simp [with_auto_relogin, rawCall, h1, hs, hl, h2, Nat.add_assoc]
  · intro e1 h1 hn
    simp [with_auto_relogin, rawCall, h1, hn]

/-- Witness for C7: with the inner call failing session-invalid twice in a
row, the wrapper performs one relogin (storing the fresh token tokA),
re-invokes once, and raises after exactly two inner calls — no third
call. -/
theorem relogin_single_recovery_cycle_witness :
    with_auto_relogin sinvW loginW (rawCall remoteC7) st0 =
      (Except.error (PyErr.fileMakerError "sinv"),
       { token := "tokA", calls := 2, relogins := 1, sleeps := 0 }) := by
  have h := (relogin_single_recovery_cycle sinvW loginW remoteC7 st0).2.1
      (PyErr.fileMakerError "sinv") "tokA" (PyErr.fileMakerError "sinv")
      rfl rfl rfl rfl
  simpa [st0] using h

/-- C8: the remote-call body returns the decoded JSON itself when the body
decodes and indicates success, and on an undecodable body raises the
malformed-response error carrying both the original decode failure and the
raw response body. -/
theorem call_filemaker_json_roundtrip {J : Type} (transport : Nat → Except PyErr String)
    (decode : String → Except String J) (appErr : J → Option String) (s : St) :
    (∀ text j, transport s.calls = Except.ok text → decode text = Except.ok j →
        appErr j = none →
        call_filemaker_body transport decode (handle_response_data appErr) s =
          (Except.ok j, { s with calls := s.calls + 1 }))
  ∧ (∀ text ex, transport s.calls = Except.ok text → decode text = Except.error ex →
        call_filemaker_body transport decode (handle_response_data appErr) s =
          (Except.error (PyErr.badJSON ex text), { s with calls := s.calls + 1 })) := by
  constructor
  · intro text j h1 h2 h3
    simp [call_filemaker_body, handle_response_data, h1, h2, h3]
  · intro text ex h1 h2
    simp [call_filemaker_body, h1, h2]

/-- Witness for C8: the valid success body 7 decodes to 7 and is returned
as the result; the invalid body oops raises the malformed-response error
carrying the decode failure and the raw body oops. -/
theorem call_filemaker_json_roundtrip_witness :
    (call_filemaker_body transport7 decode8 (handle_response_data appErr8) st0 =
      (Except.ok 7, { token := "t", calls := 1, relogins := 0, sleeps := 0 }))
  ∧ (call_filemaker_body transportBad decode8 (handle_response_data appErr8) st0 =
      (Except.error (PyErr.badJSON "expecting value" "oops"),
       { token := "t", calls := 1, relogins := 0, sleeps := 0 })) := by
  constructor
  · have h := (call_filemaker_json_roundtrip transport7 decode8 appErr8 st0).1
        "7" 7 rfl rfl rfl
    simpa [st0] using h
  · have h := (call_filemaker_json_roundtrip transportBad decode8 appErr8 st0).2
        "oops" "expecting value" rfl rfl
    simpa [st0] using h

end FmrestAsync
